import Mathlib

/-!
Verification of the IncidentManagementSystem backend.

Embedded from the source where it is present in the snapshot:
`backend/src/routes/incidents.routes.js` (route handlers), `backend/config.js`
(configuration tables).  The store (`incidents.store.js`) and the validation
module (`utils/validate.js`) are not part of the snapshot; their definitions
below are modelled from the specification and say so in their doc comments.
-/

namespace IMS

/-- The four incident statuses, from `config.incidents.statuses`
(`config.js` line 262). -/
inductive Status where
  | OPEN
  | INVESTIGATING
  | RESOLVED
  | ARCHIVED
deriving DecidableEq, Repr

/-- The category enumeration, from `config.incidents.categories`
(`config.js` line 273). -/
inductive Category where
  | IT
  | SAFETY
  | FACILITIES
  | OTHER
deriving DecidableEq, Repr

/-- The severity enumeration, from `config.incidents.severities`
(`config.js` line 276). -/
inductive Severity where
  | LOW
  | MEDIUM
  | HIGH
deriving DecidableEq, Repr

/-- String form of a status, as stored in the JSON file and sent over HTTP. -/
def statusToString : Status → String
  | .OPEN => "OPEN"
  | .INVESTIGATING => "INVESTIGATING"
  | .RESOLVED => "RESOLVED"
  | .ARCHIVED => "ARCHIVED"

/-- Parse a status string; `none` for an unrecognized value. -/
def parseStatus : String → Option Status
  | "OPEN" => some .OPEN
  | "INVESTIGATING" => some .INVESTIGATING
  | "RESOLVED" => some .RESOLVED
  | "ARCHIVED" => some .ARCHIVED
  | _ => none

/-- String form of a category. -/
def categoryToString : Category → String
  | .IT => "IT"
  | .SAFETY => "SAFETY"
  | .FACILITIES => "FACILITIES"
  | .OTHER => "OTHER"

/-- Parse a category string; `none` for an unrecognized value. -/
def parseCategory : String → Option Category
  | "IT" => some .IT
  | "SAFETY" => some .SAFETY
  | "FACILITIES" => some .FACILITIES
  | "OTHER" => some .OTHER
  | _ => none

/-- String form of a severity. -/
def severityToString : Severity → String
  | .LOW => "LOW"
  | .MEDIUM => "MEDIUM"
  | .HIGH => "HIGH"

/-- Parse a severity string; `none` for an unrecognized value. -/
def parseSeverity : String → Option Severity
  | "LOW" => some .LOW
  | "MEDIUM" => some .MEDIUM
  | "HIGH" => some .HIGH
  | _ => none

/-- `config.incidents.statusTransitions` (`config.js` lines 265-270):
the declared transition table of the configuration file. -/
def statusTransitions : Status → List Status
  | .OPEN => [.INVESTIGATING, .ARCHIVED]
  | .INVESTIGATING => [.RESOLVED]
  | .RESOLVED => [.ARCHIVED]
  | .ARCHIVED => [.OPEN]

/-- `config.validation.title.minLength` (`config.js` line 282). -/
def titleMinLength : Nat := 5

/-- `config.validation.title.maxLength` (`config.js` line 283). -/
def titleMaxLength : Nat := 200

/-- `config.validation.description.minLength` (`config.js` line 286). -/
def descriptionMinLength : Nat := 10

/-- `config.validation.description.maxLength` (`config.js` line 287). -/
def descriptionMaxLength : Nat := 2000

/-- An incident record, fields as in §3 of the specification and as
serialized to `data/incidents.json`.  `reportedAt` is a timestamp
modelled as a natural number. -/
structure Incident where
  id : Nat
  title : String
  description : String
  category : Category
  severity : Severity
  status : Status
  reportedAt : Nat
deriving DecidableEq, Repr

/-- A raw candidate record as received by the create endpoint or decoded
from one CSV row: each expected column may be present or absent. -/
structure Candidate where
  title : Option String
  description : Option String
  category : Option String
  severity : Option String
deriving DecidableEq, Repr

/-- The validated fields handed to the store by a successful validation. -/
structure ValidRecord where
  title : String
  description : String
  category : Category
  severity : Severity
deriving DecidableEq, Repr

/-- One field-level validation violation, one per checked field constraint. -/
inductive FieldError where
  | invalidTitle
  | invalidDescription
  | invalidCategory
  | invalidSeverity
deriving DecidableEq, Repr

/-- Modelled from the spec: `utils/validate.js` is not in the snapshot.
The title check of `validateNewIncident` (§4.1): present and within the
configured length bounds; returns the accepted value on success. -/
def checkTitle : Option String → Option String
  | none => none
  | some s =>
    if titleMinLength ≤ s.length && s.length ≤ titleMaxLength then some s else none

/-- Modelled from the spec: `utils/validate.js` is not in the snapshot.
The description check of `validateNewIncident` (§4.1): present and within
the configured length bounds. -/
def checkDescription : Option String → Option String
  | none => none
  | some s =>
    if descriptionMinLength ≤ s.length && s.length ≤ descriptionMaxLength then
      some s
    else none

/-- Modelled from the spec: the category check of `validateNewIncident`
(§4.1): present and a member of the configured category enumeration. -/
def checkCategory : Option String → Option Category
  | none => none
  | some s => parseCategory s

/-- Modelled from the spec: the severity check of `validateNewIncident`
(§4.1): present and a member of the configured severity enumeration. -/
def checkSeverity : Option String → Option Severity
  | none => none
  | some s => parseSeverity s

/-- Modelled from the spec: the ordered sequence of field errors reported by
`validateNewIncident`.  Every field constraint is evaluated independently of
the others, and the violations are concatenated in field order. -/
def rowErrors (c : Candidate) : List FieldError :=
  (if (checkTitle c.title).isSome then [] else [FieldError.invalidTitle]) ++
  (if (checkDescription c.description).isSome then []
   else [FieldError.invalidDescription]) ++
  (if (checkCategory c.category).isSome then [] else [FieldError.invalidCategory]) ++
  (if (checkSeverity c.severity).isSome then [] else [FieldError.invalidSeverity])

/-- Modelled from the spec: `validateNewIncident` of §4.1, exported from the
missing `utils/validate.js` as `validateCreateIncident` (the name used at the
call sites in `incidents.routes.js`).  On success it returns the validated
record; on failure, the full ordered list of violations. -/
def validateCreateIncident (c : Candidate) : Except (List FieldError) ValidRecord :=
  match checkTitle c.title, checkDescription c.description,
      checkCategory c.category, checkSeverity c.severity with
  | some t, some d, some cat, some sev => .ok ⟨t, d, cat, sev⟩
  | _, _, _, _ => .error (rowErrors c)

/-- Failure values of the status-transition validation (§4.1, §7). -/
inductive TransitionError where
  | UnknownStatus
  | InvalidTransition
deriving DecidableEq, Repr

/-- Modelled from the spec: the generic-update transition table of §4.2,
restricted to the two edges usable by the plain status-update operation. -/
def genericTransitions : Status → List Status
  | .OPEN => [.INVESTIGATING]
  | .INVESTIGATING => [.RESOLVED]
  | .RESOLVED => []
  | .ARCHIVED => []

/-- Modelled from the spec: `validateStatusChange` of the missing
`utils/validate.js`, per §4.1 `validateTransition` together with the
generic-update restriction of §4.2.  Fails with `UnknownStatus` when the
requested text is not a recognized status, with `InvalidTransition` when the
edge is outside the restricted generic table. -/
def validateStatusChange (current : Status) (requested : String) :
    Except TransitionError Status :=
  match parseStatus requested with
  | none => .error .UnknownStatus
  | some next =>
    if next ∈ genericTransitions current then .ok next
    else .error .InvalidTransition

/-- Failure values of the archive and reset guards (§4.1). -/
inductive GuardError where
  | NotArchivable
  | NotResettable
deriving DecidableEq, Repr

/-- Modelled from the spec: `validateArchive` of the missing
`utils/validate.js` (§4.1 `validateArchivable`): ok iff the current status is
OPEN or RESOLVED, otherwise `NotArchivable`. -/
def validateArchive (s : Status) : Except GuardError Unit :=
  if s = .OPEN ∨ s = .RESOLVED then .ok () else .error .NotArchivable

/-- Modelled from the spec: `validateReset` of the missing `utils/validate.js`
(§4.1 `validateResettable`): ok iff the current status is ARCHIVED, otherwise
`NotResettable`. -/
def validateReset (s : Status) : Except GuardError Unit :=
  if s = .ARCHIVED then .ok () else .error .NotResettable

/-- Modelled from the spec: the in-memory state of the incident store of
§4.3 (`store/incidents.store.js` is not in the snapshot): the authoritative
collection in insertion order, plus the id counter used to generate fresh
unique identifiers. -/
structure Store where
  incidents : List Incident
  nextId : Nat
deriving DecidableEq, Repr

/-- The store a fresh process starts with when no data file exists yet. -/
def emptyStore : Store := { incidents := [], nextId := 0 }

/-- Modelled from the spec: `listAll(includeArchived)` of §4.3 — the
collection in insertion order, with records of status ARCHIVED filtered out
when `includeArchived` is false.  Pure: it takes the store and returns a
list, leaving the store untouched. -/
def listAll (s : Store) (includeArchived : Bool) : List Incident :=
  if includeArchived then s.incidents
  else s.incidents.filter (fun i => i.status != Status.ARCHIVED)

/-- Modelled from the spec: `findById(id)` of §4.3 — the first (unique)
record with the given id, or `none` when absent. -/
def findById (s : Store) (id : Nat) : Option Incident :=
  s.incidents.find? (fun i => i.id == id)

/-- Modelled from the spec: `create(validatedFields)` of §4.3 — generates a
fresh unique id, sets `status = OPEN`, sets `reportedAt` to the current time,
appends to the collection, returns the new record. -/
def createIncident (s : Store) (v : ValidRecord) (now : Nat) : Store × Incident :=
  let inc : Incident :=
    { id := s.nextId, title := v.title, description := v.description,
      category := v.category, severity := v.severity,
      status := Status.OPEN, reportedAt := now }
  ({ incidents := s.incidents ++ [inc], nextId := s.nextId + 1 }, inc)

/-- The in-memory effect of a status overwrite: the record with the given id
gets the new status, all other records are untouched. -/
def applyStatus (s : Store) (id : Nat) (next : Status) : Store :=
  { s with incidents :=
      s.incidents.map (fun i => if i.id == id then { i with status := next } else i) }

/-- Modelled from the spec: `updateStatus(id, nextStatus)` of §4.3 —
overwrites the status of the record with the given id and returns the
updated record (`none` when the id is absent). -/
def updateStatus (s : Store) (id : Nat) (next : Status) : Store × Option Incident :=
  (applyStatus s id next, findById (applyStatus s id next) id)

/-- Modelled from the spec: `archive(id)` of §4.3 — `updateStatus`
specialized to the ARCHIVED target; returns `none` when the id is absent
rather than raising. -/
def archiveIncident (s : Store) (id : Nat) : Store × Option Incident :=
  updateStatus s id Status.ARCHIVED

/-- Modelled from the spec: `resetArchived(id)` of §4.3 — `updateStatus`
specialized to the OPEN target; returns `none` when the id is absent. -/
def resetArchivedIncident (s : Store) (id : Nat) : Store × Option Incident :=
  updateStatus s id Status.OPEN

/-- Outcome of the list endpoint: the HTTP 200 body. -/
def listEndpoint (s : Store) (includeArchivedParam : Option String) : List Incident :=
  listAll s (includeArchivedParam == some "true")

/-- Outcome of an endpoint that returns an incident or an error response. -/
inductive ApiResult (ε : Type) where
  | notFound
  | badRequest (e : ε)
  | ok (i : Incident)
deriving DecidableEq, Repr

/-- `PATCH /api/incidents/:id/status` (`incidents.routes.js` lines 99-113):
find the incident (404 when absent), validate the requested transition with
`validateStatusChange` (400 on failure), then apply `updateStatus` and return
the updated record. -/
def patchStatus (s : Store) (id : Nat) (requested : String) :
    Store × ApiResult TransitionError :=
  match findById s id with
  | none => (s, .notFound)
  | some incident =>
    match validateStatusChange incident.status requested with
    | .error e => (s, .badRequest e)
    | .ok next =>
      match updateStatus s incident.id next with
      | (s', some updated) => (s', .ok updated)
      | (s', none) => (s', .notFound)

/-- `POST /api/incidents/:id/archive` (`incidents.routes.js` lines 128-146):
find the incident (404 when absent), check `validateArchive` (400 on
failure), then archive and return the archived record (400 when the store
reports no record). -/
def archiveRoute (s : Store) (id : Nat) : Store × ApiResult GuardError :=
  match findById s id with
  | none => (s, .notFound)
  | some incident =>
    match validateArchive incident.status with
    | .error e => (s, .badRequest e)
    | .ok _ =>
      match archiveIncident s incident.id with
      | (s', some archived) => (s', .ok archived)
      | (s', none) => (s', .notFound)

/-- `POST /api/incidents/:id/reset` (`incidents.routes.js` lines 161-179):
find the incident (404 when absent), check `validateReset` (400 on failure),
then reset and return the record (400 when the store reports no record). -/
def resetRoute (s : Store) (id : Nat) : Store × ApiResult GuardError :=
  match findById s id with
  | none => (s, .notFound)
  | some incident =>
    match validateReset incident.status with
    | .error e => (s, .badRequest e)
    | .ok _ =>
      match resetArchivedIncident s incident.id with
      | (s', some reset) => (s', .ok reset)
      | (s', none) => (s', .notFound)

/-- The summary returned by the bulk-upload endpoint. -/
structure BulkSummary where
  totalRows : Nat
  created : Nat
  skipped : Nat
deriving DecidableEq, Repr

/-- The per-row loop of `POST /api/incidents/bulk-upload`
(`incidents.routes.js` lines 212-220): for each row in input order, validate
with `validateCreateIncident`; on failure bump the skip counter and continue,
on success create the incident and bump the created counter.  Returns the
final store with the two counters. -/
def processRows (s : Store) (rows : List Candidate) (now : Nat) :
    Store × Nat × Nat :=
  match rows with
  | [] => (s, 0, 0)
  | row :: rest =>
    match validateCreateIncident row with
    | .error _ =>
      let (s', c, k) := processRows s rest now
      (s', c, k + 1)
    | .ok v =>
      let (s1, _) := createIncident s v now
      let (s', c, k) := processRows s1 rest now
      (s', c + 1, k)

/-- `POST /api/incidents/bulk-upload` (`incidents.routes.js` lines 200-231):
run the per-row loop over the decoded rows and report
`totalRows = records.length` with the created and skipped counters. -/
def bulkUpload (s : Store) (rows : List Candidate) (now : Nat) :
    Store × BulkSummary :=
  let (s', created, skipped) := processRows s rows now
  (s', { totalRows := rows.length, created := created, skipped := skipped })

/-- A JSON-like value, the shape of the durable file `data/incidents.json`
(`config.storage.incidentsFilePath`, `config.js` line 251). -/
inductive Json where
  | str (s : String)
  | num (n : Nat)
  | arr (xs : List Json)
  | obj (fields : List (String × Json))

/-- Look up a key in a JSON object field list. -/
def getField (fields : List (String × Json)) (k : String) : Option Json :=
  match fields.find? (fun kv => kv.1 == k) with
  | some kv => some kv.2
  | none => none

/-- Extract a string value. -/
def asStr : Json → Option String
  | .str s => some s
  | _ => none

/-- Extract a numeric value. -/
def asNum : Json → Option Nat
  | .num n => some n
  | _ => none

/-- Modelled from the spec: serialization of one incident record to the
durable file, with the fields of §3 (the store module holding the concrete
writer is not in the snapshot; the encoding is the JSON object the README
and §6 describe, enumerations written as their names). -/
def encodeIncident (i : Incident) : Json :=
  .obj [("id", .num i.id),
        ("title", .str i.title),
        ("description", .str i.description),
        ("category", .str (categoryToString i.category)),
        ("severity", .str (severityToString i.severity)),
        ("status", .str (statusToString i.status)),
        ("reportedAt", .num i.reportedAt)]

/-- Modelled from the spec: decoding of one incident record from the durable
file; fails on a missing field, a wrong field type, or an enumeration value
outside its allowed set. -/
def decodeIncident : Json → Option Incident
  | .obj fs => do
    let id ← (getField fs "id").bind asNum
    let title ← (getField fs "title").bind asStr
    let description ← (getField fs "description").bind asStr
    let category ← ((getField fs "category").bind asStr).bind parseCategory
    let severity ← ((getField fs "severity").bind asStr).bind parseSeverity
    let status ← ((getField fs "status").bind asStr).bind parseStatus
    let reportedAt ← (getField fs "reportedAt").bind asNum
    pure { id := id, title := title, description := description,
           category := category, severity := severity,
           status := status, reportedAt := reportedAt }
  | _ => none

/-- Decode a list of JSON values into incident records, failing if any
single record fails to decode. -/
def decodeList : List Json → Option (List Incident)
  | [] => some []
  | j :: rest =>
    match decodeIncident j, decodeList rest with
    | some i, some l => some (i :: l)
    | _, _ => none

/-- Modelled from the spec: the whole collection is written wholesale as one
ordered JSON array on every mutation (§6, durable file format). -/
def persist (incidents : List Incident) : Json :=
  .arr (incidents.map encodeIncident)

/-- Modelled from the spec: loading the durable file back into the in-memory
collection; fails when the file is not parseable as an incident array. -/
def load : Json → Option (List Incident)
  | .arr xs => decodeList xs
  | _ => none

/-- Modelled from the spec: the store paired with its durable mirror — the
collection the data file currently holds (§4.3, persistence protocol). -/
structure PersistentStore where
  mem : Store
  disk : List Incident
deriving DecidableEq, Repr

/-- The durable mirror is consistent with the in-memory collection. -/
def consistent (ps : PersistentStore) : Prop :=
  ps.disk = ps.mem.incidents

/-- Modelled from the spec: the read-modify-write-persist cycle of one
mutating store operation (§4.3, §7).  The mutation is applied in memory and
the whole collection is written to the file; `writeOk` is whether the
durable write succeeds.  On write failure the mutation is not reported as
applied and the in-memory collection is rolled back to the last durable
snapshot; `true` is reported only after the file matches memory. -/
def runMutation (ps : PersistentStore) (f : Store → Store) (writeOk : Bool) :
    PersistentStore × Bool :=
  let m := f ps.mem
  if writeOk then
    ({ mem := m, disk := m.incidents }, true)
  else
    ({ mem := { m with incidents := ps.disk }, disk := ps.disk }, false)

/-- Store states reachable from the empty store by sequences of accepted
mutations through the endpoints: create, generic status update, archive,
reset, and bulk upload. -/
inductive Reachable : Store → Prop where
  | empty : Reachable emptyStore
  | create {s} (v : ValidRecord) (now : Nat) :
      Reachable s → Reachable (createIncident s v now).1
  | patch {s} (id : Nat) (requested : String) :
      Reachable s → Reachable (patchStatus s id requested).1
  | archive {s} (id : Nat) :
      Reachable s → Reachable (archiveRoute s id).1
  | reset {s} (id : Nat) :
      Reachable s → Reachable (resetRoute s id).1
  | bulk {s} (rows : List Candidate) (now : Nat) :
      Reachable s → Reachable (bulkUpload s rows now).1

/-- A valid record used to exercise the endpoints on concrete inputs. -/
def demoValid : ValidRecord :=
  { title := "Server outage down",
    description := "Production server unresponsive since 10am",
    category := Category.IT, severity := Severity.HIGH }

/-- A resolved incident, for exercising the archive-related guards. -/
def demoIncident : Incident :=
  { id := 1, title := "Server outage down",
    description := "Production server unresponsive since 10am",
    category := Category.IT, severity := Severity.HIGH,
    status := Status.RESOLVED, reportedAt := 100 }

/-- A store holding only `demoIncident`. -/
def demoStore : Store := { incidents := [demoIncident], nextId := 2 }

/-- An incident under investigation, for the not-archivable guard. -/
def invIncident : Incident := { demoIncident with status := Status.INVESTIGATING }

/-- A store holding only `invIncident`. -/
def invStore : Store := { incidents := [invIncident], nextId := 2 }

/-- An archived incident, for the reset guard. -/
def archIncident : Incident := { demoIncident with status := Status.ARCHIVED }

/-- A store holding only `archIncident`. -/
def archStore : Store := { incidents := [archIncident], nextId := 2 }

theorem find?_setStatus (l : List Incident) (id : Nat) (next : Status) :
    List.find? (fun i => i.id == id)
      (l.map (fun i => if i.id == id then { i with status := next } else i)) =
    Option.map (fun i => if i.id == id then { i with status := next } else i)
      (List.find? (fun i => i.id == id) l) := by
  rw [List.find?_map]
  have hfun : ((fun i : Incident => i.id == id) ∘ fun i =>
      if i.id == id then { i with status := next } else i) =
      (fun i : Incident => i.id == id) := by
    funext x
    cases h : (x.id == id) <;> simp [Function.comp, h]
  rw [hfun]

theorem updateStatus_found (s : Store) (id : Nat) (next : Status) (i : Incident)
    (h : findById s id = some i) :
    (updateStatus s id next).2 = some { i with status := next } := by
  have h' : List.find? (fun j : Incident => j.id == id) s.incidents = some i := h
  have hp : (i.id == id) = true :=
    @List.find?_some Incident (fun j : Incident => j.id == id) i s.incidents h'
  show List.find? (fun j : Incident => j.id == id)
    (s.incidents.map (fun j => if j.id == id then { j with status := next } else j)) = _
  rw [find?_setStatus, h']
  show some (if (i.id == id) = true then { i with status := next } else i) = _
  rw [if_pos hp]

theorem findById_id_eq (s : Store) (id : Nat) (i : Incident)
    (h : findById s id = some i) : i.id = id := by
  have h' : List.find? (fun j : Incident => j.id == id) s.incidents = some i := h
  exact eq_of_beq
    (@List.find?_some Incident (fun j : Incident => j.id == id) i s.incidents h')

/-- C1: the generic status-update endpoint rejects every (from, to) pair
outside the restricted generic table {OPEN→INVESTIGATING,
INVESTIGATING→RESOLVED} with `InvalidTransition`, leaving the store
unchanged; in particular a generic request with target ARCHIVED (including
RESOLVED→ARCHIVED) and a generic ARCHIVED→OPEN request are rejected. -/
theorem patchStatus_rejects_outside_generic_table
    (s : Store) (id : Nat) (requested : String) (i : Incident) (tgt : Status)
    (hfind : findById s id = some i)
    (hparse : parseStatus requested = some tgt)
    (hout : ¬ ((i.status = Status.OPEN ∧ tgt = Status.INVESTIGATING) ∨
               (i.status = Status.INVESTIGATING ∧ tgt = Status.RESOLVED))) :
    patchStatus s id requested =
      (s, ApiResult.badRequest TransitionError.InvalidTransition) := by
  have hmem : tgt ∉ genericTransitions i.status := by
    cases hst : i.status <;> cases htgt : tgt <;> simp_all [genericTransitions]
  simp only [patchStatus, hfind, validateStatusChange, hparse, if_neg hmem]

theorem patchStatus_rejects_witness :
    patchStatus demoStore 1 "ARCHIVED" =
      (demoStore, ApiResult.badRequest TransitionError.InvalidTransition) :=
  patchStatus_rejects_outside_generic_table demoStore 1 "ARCHIVED" demoIncident
    Status.ARCHIVED (by rfl) (by rfl) (by decide)

/-- C4: the archive endpoint succeeds exactly when the incident's current
status is OPEN or RESOLVED, setting it to ARCHIVED; on any other current
status it fails with `NotArchivable` and leaves the store unchanged. -/
theorem archiveRoute_guard (s : Store) (id : Nat) (i : Incident)
    (hfind : findById s id = some i) :
    (¬ (i.status = Status.OPEN ∨ i.status = Status.RESOLVED) →
        archiveRoute s id = (s, ApiResult.badRequest GuardError.NotArchivable)) ∧
    ((i.status = Status.OPEN ∨ i.status = Status.RESOLVED) →
        archiveRoute s id =
          ((updateStatus s i.id Status.ARCHIVED).1,
           ApiResult.ok { i with status := Status.ARCHIVED })) := by
  have hid : i.id = id := findById_id_eq s id i hfind
  subst hid
  constructor
  · intro hbad
    simp only [archiveRoute, hfind, validateArchive, if_neg hbad]
  · intro hok
    have hfound : (updateStatus s i.id Status.ARCHIVED).2 =
        some { i with status := Status.ARCHIVED } :=
      updateStatus_found s i.id Status.ARCHIVED i hfind
    simp only [archiveRoute, hfind, validateArchive, if_pos hok,
      archiveIncident]
    rw [show updateStatus s i.id Status.ARCHIVED =
        ((updateStatus s i.id Status.ARCHIVED).1,
         (updateStatus s i.id Status.ARCHIVED).2) from rfl, hfound]

theorem archiveRoute_guard_witness :
    archiveRoute invStore 1 =
      (invStore, ApiResult.badRequest GuardError.NotArchivable) ∧
    archiveRoute demoStore 1 =
      ((updateStatus demoStore 1 Status.ARCHIVED).1,
       ApiResult.ok { demoIncident with status := Status.ARCHIVED }) :=
  ⟨(archiveRoute_guard invStore 1 invIncident (by rfl)).1 (by decide),
   (archiveRoute_guard demoStore 1 demoIncident (by rfl)).2 (by decide)⟩

/-- C5: the reset endpoint succeeds exactly when the incident's current
status is ARCHIVED, setting it to OPEN; on any other current status it fails
with `NotResettable` and leaves the store unchanged. -/
theorem resetRoute_guard (s : Store) (id : Nat) (i : Incident)
    (hfind : findById s id = some i) :
    (¬ i.status = Status.ARCHIVED →
        resetRoute s id = (s, ApiResult.badRequest GuardError.NotResettable)) ∧
    (i.status = Status.ARCHIVED →
        resetRoute s id =
          ((updateStatus s i.id Status.OPEN).1,
           ApiResult.ok { i with status := Status.OPEN })) := by
  have hid : i.id = id := findById_id_eq s id i hfind
  subst hid
  constructor
  · intro hbad
    simp only [resetRoute, hfind, validateReset, if_neg hbad]
  · intro hok
    have hfound : (updateStatus s i.id Status.OPEN).2 =
        some { i with status := Status.OPEN } :=
      updateStatus_found s i.id Status.OPEN i hfind
    simp only [resetRoute, hfind, validateReset, if_pos hok,
      resetArchivedIncident]
    rw [show updateStatus s i.id Status.OPEN =
        ((updateStatus s i.id Status.OPEN).1,
         (updateStatus s i.id Status.OPEN).2) from rfl, hfound]

theorem resetRoute_guard_witness :
    resetRoute demoStore 1 =
      (demoStore, ApiResult.badRequest GuardError.NotResettable) ∧
    resetRoute archStore 1 =
      ((updateStatus archStore 1 Status.OPEN).1,
       ApiResult.ok { archIncident with status := Status.OPEN }) :=
  ⟨(resetRoute_guard demoStore 1 demoIncident (by rfl)).1 (by decide),
   (resetRoute_guard archStore 1 archIncident (by rfl)).2 (by decide)⟩

theorem map_idReportedAt_setStatus (l : List Incident) (id : Nat) (next : Status) :
    ((l.map (fun i => if i.id == id then { i with status := next } else i)).map
        (fun i => (i.id, i.reportedAt))) =
      l.map (fun i => (i.id, i.reportedAt)) := by
  rw [List.map_map]
  congr 1
  funext x
  cases h : (x.id == id) <;> simp [Function.comp, h]

theorem patchStatus_preserves_idReportedAt (s : Store) (id : Nat)
    (requested : String) :
    ((patchStatus s id requested).1.incidents.map (fun i => (i.id, i.reportedAt))) =
      s.incidents.map (fun i => (i.id, i.reportedAt)) := by
  cases hfind : findById s id with
  | none => simp [patchStatus, hfind]
  | some i =>
    cases hc : validateStatusChange i.status requested with
    | error e => simp [patchStatus, hfind, hc]
    | ok next =>
      have hfst : (patchStatus s id requested).1 = applyStatus s i.id next := by
        simp only [patchStatus, hfind, hc, updateStatus]
        cases hu : findById (applyStatus s i.id next) i.id <;> simp [hu]
      rw [hfst]
      exact map_idReportedAt_setStatus s.incidents i.id next

theorem archiveRoute_preserves_idReportedAt (s : Store) (id : Nat) :
    ((archiveRoute s id).1.incidents.map (fun i => (i.id, i.reportedAt))) =
      s.incidents.map (fun i => (i.id, i.reportedAt)) := by
  cases hfind : findById s id with
  | none => simp [archiveRoute, hfind]
  | some i =>
    cases hc : validateArchive i.status with
    | error e => simp [archiveRoute, hfind, hc]
    | ok u =>
      have hfst : (archiveRoute s id).1 = applyStatus s i.id Status.ARCHIVED := by
        simp only [archiveRoute, hfind, hc, archiveIncident, updateStatus]
        cases hu : findById (applyStatus s i.id Status.ARCHIVED) i.id <;> simp [hu]
      rw [hfst]
      exact map_idReportedAt_setStatus s.incidents i.id Status.ARCHIVED

theorem resetRoute_preserves_idReportedAt (s : Store) (id : Nat) :
    ((resetRoute s id).1.incidents.map (fun i => (i.id, i.reportedAt))) =
      s.incidents.map (fun i => (i.id, i.reportedAt)) := by
  cases hfind : findById s id with
  | none => simp [resetRoute, hfind]
  | some i =>
    cases hc : validateReset i.status with
    | error e => simp [resetRoute, hfind, hc]
    | ok u =>
      have hfst : (resetRoute s id).1 = applyStatus s i.id Status.OPEN := by
        simp only [resetRoute, hfind, hc, resetArchivedIncident, updateStatus]
        cases hu : findById (applyStatus s i.id Status.OPEN) i.id <;> simp [hu]
      rw [hfst]
      exact map_idReportedAt_setStatus s.incidents i.id Status.OPEN

/-- C3: every incident returned by the create operation has status OPEN and
`reportedAt` equal to the creation time, and is appended to the collection;
the status-update, archive, and reset endpoints never change any incident's
`reportedAt` (nor its id), so `reportedAt` is assigned exactly once. -/
theorem create_open_and_reportedAt_immutable :
    (∀ (s : Store) (v : ValidRecord) (now : Nat),
        (createIncident s v now).2.status = Status.OPEN ∧
        (createIncident s v now).2.reportedAt = now ∧
        (createIncident s v now).1.incidents =
          s.incidents ++ [(createIncident s v now).2]) ∧
    (∀ (s : Store) (id : Nat) (requested : String),
        ((patchStatus s id requested).1.incidents.map
            (fun i => (i.id, i.reportedAt))) =
          s.incidents.map (fun i => (i.id, i.reportedAt))) ∧
    (∀ (s : Store) (id : Nat),
        ((archiveRoute s id).1.incidents.map (fun i => (i.id, i.reportedAt))) =
          s.incidents.map (fun i => (i.id, i.reportedAt))) ∧
    (∀ (s : Store) (id : Nat),
        ((resetRoute s id).1.incidents.map (fun i => (i.id, i.reportedAt))) =
          s.incidents.map (fun i => (i.id, i.reportedAt))) :=
  ⟨fun _ _ _ => ⟨rfl, rfl, rfl⟩,
   patchStatus_preserves_idReportedAt,
   archiveRoute_preserves_idReportedAt,
   resetRoute_preserves_idReportedAt⟩

theorem create_open_witness :
    (createIncident emptyStore demoValid 100).2.status = Status.OPEN ∧
    (createIncident emptyStore demoValid 100).2.reportedAt = 100 ∧
    ((archiveRoute demoStore 1).1.incidents.map (fun i => (i.id, i.reportedAt))) =
      demoStore.incidents.map (fun i => (i.id, i.reportedAt)) :=
  ⟨(create_open_and_reportedAt_immutable.1 emptyStore demoValid 100).1,
   (create_open_and_reportedAt_immutable.1 emptyStore demoValid 100).2.1,
   create_open_and_reportedAt_immutable.2.2.1 demoStore 1⟩

/-- C6: `listAll true` is the whole collection in insertion order;
`listAll false` contains exactly the non-ARCHIVED incidents, as a sublist of
the collection (insertion order preserved); both are pure functions of the
store. -/
theorem listAll_spec (s : Store) :
    listAll s true = s.incidents ∧
    (∀ i : Incident,
        i ∈ listAll s false ↔ i ∈ s.incidents ∧ i.status ≠ Status.ARCHIVED) ∧
    (listAll s false).Sublist s.incidents := by
  refine ⟨rfl, ?_, ?_⟩
  · intro i
    simp [listAll, List.mem_filter]
  · show (s.incidents.filter _).Sublist s.incidents
    exact List.filter_sublist s.incidents

theorem listAll_spec_witness :
    (archIncident ∈ listAll archStore false ↔
      archIncident ∈ archStore.incidents ∧ archIncident.status ≠ Status.ARCHIVED) ∧
    listAll archStore false = [] :=
  ⟨(listAll_spec archStore).2.1 archIncident, by rfl⟩

/-- C10: the list endpoint includes archived incidents only when the
`includeArchived` query parameter is exactly the string "true"; any other
value, and an absent parameter, behave as false and the response excludes
ARCHIVED incidents. -/
theorem listEndpoint_strict_true (s : Store) (q : Option String) :
    (q = some "true" → listEndpoint s q = s.incidents) ∧
    (q ≠ some "true" →
        listEndpoint s q = listAll s false ∧
        ∀ i ∈ listEndpoint s q, i.status ≠ Status.ARCHIVED) := by
  constructor
  · intro hq
    subst hq
    rfl
  · intro hq
    have hb : (q == some "true") = false := by
      cases q with
      | none => rfl
      | some v =>
        simp only [beq_eq_false_iff_ne, ne_eq, Option.some.injEq]
        exact fun hv => hq (by rw [hv])
    constructor
    · simp [listEndpoint, hb, listAll]
    · intro i hi
      have : i ∈ listAll s false := by
        simpa [listEndpoint, hb] using hi
      exact (((listAll_spec s).2.1 i).mp this).2

theorem listEndpoint_strict_true_witness :
    listEndpoint archStore (some "TRUE") = listAll archStore false ∧
    listEndpoint archStore none = listAll archStore false ∧
    listEndpoint archStore (some "true") = archStore.incidents :=
  ⟨((listEndpoint_strict_true archStore (some "TRUE")).2 (by decide)).1,
   ((listEndpoint_strict_true archStore none).2 (by decide)).1,
   (listEndpoint_strict_true archStore (some "true")).1 rfl⟩

/-- C7: validation is exhaustive: `validateCreateIncident` succeeds exactly
when no field constraint fails, and on failure returns the full ordered list
of violations, each field being checked independently of whether an earlier
field already failed. -/
theorem validateCreateIncident_reports_all (c : Candidate) :
    ((∃ v, validateCreateIncident c = Except.ok v) ↔ rowErrors c = []) ∧
    (∀ es, validateCreateIncident c = Except.error es → es = rowErrors c) ∧
    (FieldError.invalidTitle ∈ rowErrors c ↔ checkTitle c.title = none) ∧
    (FieldError.invalidDescription ∈ rowErrors c ↔
      checkDescription c.description = none) ∧
    (FieldError.invalidCategory ∈ rowErrors c ↔ checkCategory c.category = none) ∧
    (FieldError.invalidSeverity ∈ rowErrors c ↔ checkSeverity c.severity = none) := by
  rcases ht : checkTitle c.title with _ | t <;>
    rcases hd : checkDescription c.description with _ | d <;>
    rcases hc : checkCategory c.category with _ | cat <;>
    rcases hs : checkSeverity c.severity with _ | sev <;>
    simp [validateCreateIncident, rowErrors, ht, hd, hc, hs]

/-- A candidate violating the title bound and the severity enumeration while
the other two fields are fine. -/
def badCandidate : Candidate :=
  { title := some "Bad", description := some "Production server unresponsive",
    category := some "IT", severity := some "URGENT" }

theorem validateCreateIncident_reports_all_witness :
    validateCreateIncident badCandidate = Except.error (rowErrors badCandidate) ∧
    rowErrors badCandidate =
      [FieldError.invalidTitle, FieldError.invalidSeverity] := by
  have h : validateCreateIncident badCandidate =
      Except.error [FieldError.invalidTitle, FieldError.invalidSeverity] := by rfl
  have h2 := (validateCreateIncident_reports_all badCandidate).2.1 _ h
  exact ⟨h2 ▸ h, h2.symm⟩

/-- The incident record the store builds for a validated record at a given
id counter value and creation time: exactly what `createIncident` appends. -/
def freshIncident (nid : Nat) (v : ValidRecord) (now : Nat) : Incident :=
  { id := nid, title := v.title, description := v.description,
    category := v.category, severity := v.severity,
    status := Status.OPEN, reportedAt := now }

/-- The records the bulk-import loop appends: one fresh incident per row that
passes validation, in input order, with consecutively generated ids. -/
def newRecords (nid : Nat) (rows : List Candidate) (now : Nat) : List Incident :=
  match rows with
  | [] => []
  | r :: rest =>
    match validateCreateIncident r with
    | .ok v => freshIncident nid v now :: newRecords (nid + 1) rest now
    | .error _ => newRecords nid rest now

/-- The number of rows that pass validation. -/
def validCount (rows : List Candidate) : Nat :=
  (rows.filter (fun r => (validateCreateIncident r).isOk)).length

/-- The number of rows that fail validation. -/
def invalidCount (rows : List Candidate) : Nat :=
  (rows.filter (fun r => !(validateCreateIncident r).isOk)).length

theorem valid_invalid_count (rows : List Candidate) :
    validCount rows + invalidCount rows = rows.length := by
  induction rows with
  | nil => rfl
  | cons r rest ih =>
    cases hv : (validateCreateIncident r).isOk <;>
      simp [validCount, invalidCount, List.filter_cons, hv] at ih ⊢ <;> omega

theorem processRows_spec (rows : List Candidate) (s : Store) (now : Nat) :
    processRows s rows now =
      ({ incidents := s.incidents ++ newRecords s.nextId rows now,
         nextId := s.nextId + validCount rows },
       validCount rows, invalidCount rows) := by
  induction rows generalizing s with
  | nil => simp [processRows, newRecords, validCount, invalidCount]
  | cons r rest ih =>
    cases hv : validateCreateIncident r with
    | error es =>
      have hok : (validateCreateIncident r).isOk = false := by rw [hv]; rfl
      have hstep : processRows s (r :: rest) now =
          ((processRows s rest now).1, (processRows s rest now).2.1,
           (processRows s rest now).2.2 + 1) := by
        simp only [processRows, hv]
      have h1 : newRecords s.nextId (r :: rest) now =
          newRecords s.nextId rest now := by
        simp [newRecords, hv]
      have h2 : validCount (r :: rest) = validCount rest := by
        simp [validCount, List.filter_cons, hok]
      have h3 : invalidCount (r :: rest) = invalidCount rest + 1 := by
        simp [invalidCount, List.filter_cons, hok]
      rw [hstep, ih, h1, h2, h3]
    | ok v =>
      have hok : (validateCreateIncident r).isOk = true := by rw [hv]; rfl
      have hstep : processRows s (r :: rest) now =
          ((processRows (createIncident s v now).1 rest now).1,
           (processRows (createIncident s v now).1 rest now).2.1 + 1,
           (processRows (createIncident s v now).1 rest now).2.2) := by
        simp only [processRows, hv]
      have h1 : newRecords s.nextId (r :: rest) now =
          freshIncident s.nextId v now :: newRecords (s.nextId + 1) rest now := by
        simp [newRecords, hv]
      have h2 : validCount (r :: rest) = validCount rest + 1 := by
        simp [validCount, List.filter_cons, hok]
      have h3 : invalidCount (r :: rest) = invalidCount rest := by
        simp [invalidCount, List.filter_cons, hok]
      have hcr1 : (createIncident s v now).1.incidents =
          s.incidents ++ [freshIncident s.nextId v now] := rfl
      have hcr2 : (createIncident s v now).1.nextId = s.nextId + 1 := rfl
      have hinc : (s.incidents ++ [freshIncident s.nextId v now]) ++
          newRecords (s.nextId + 1) rest now =
          s.incidents ++ freshIncident s.nextId v now ::
            newRecords (s.nextId + 1) rest now := by
        simp [List.append_assoc]
      have hnid : s.nextId + 1 + validCount rest =
          s.nextId + (validCount rest + 1) := by omega
      rw [hstep, ih, h1, h2, h3, hcr1, hcr2, hinc, hnid]

/-- C2: bulk import of N rows of which K fail validation reports
`totalRows = N`, `created = N - K`, `skipped = K`, and appends exactly the
N-K valid rows to the store, in input order, independently per row. -/
theorem bulkUpload_summary (s : Store) (rows : List Candidate) (now : Nat) :
    (bulkUpload s rows now).2.totalRows = rows.length ∧
    (bulkUpload s rows now).2.created = validCount rows ∧
    (bulkUpload s rows now).2.skipped = invalidCount rows ∧
    (bulkUpload s rows now).2.created =
      rows.length - (bulkUpload s rows now).2.skipped ∧
    (bulkUpload s rows now).1.incidents =
      s.incidents ++ newRecords s.nextId rows now := by
  have h := processRows_spec rows s now
  have hsum := valid_invalid_count rows
  refine ⟨rfl, ?_, ?_, ?_, ?_⟩
  · show (processRows s rows now).2.1 = _
    rw [h]
  · show (processRows s rows now).2.2 = _
    rw [h]
  · show (processRows s rows now).2.1 = rows.length - (processRows s rows now).2.2
    rw [h]
    simp
    omega
  · show (processRows s rows now).1.incidents = _
    rw [h]

/-- Two concrete rows: the first valid, the second failing validation. -/
def demoRows : List Candidate :=
  [{ title := some "Server outage down",
     description := some "Production server unresponsive since 10am",
     category := some "IT", severity := some "HIGH" },
   badCandidate]

theorem bulkUpload_summary_witness :
    (bulkUpload emptyStore demoRows 7).2.totalRows = 2 ∧
    (bulkUpload emptyStore demoRows 7).2.created = 1 ∧
    (bulkUpload emptyStore demoRows 7).2.skipped = 1 ∧
    (bulkUpload emptyStore demoRows 7).1.incidents =
      newRecords 0 demoRows 7 := by
  have h := bulkUpload_summary emptyStore demoRows 7
  refine ⟨by rw [h.1]; rfl, by rw [h.2.1]; rfl, by rw [h.2.2.1]; rfl, ?_⟩
  have h5 := h.2.2.2.2
  simpa [emptyStore] using h5

theorem parseStatus_statusToString (st : Status) :
    parseStatus (statusToString st) = some st := by
  cases st <;> rfl

theorem parseCategory_categoryToString (c : Category) :
    parseCategory (categoryToString c) = some c := by
  cases c <;> rfl

theorem parseSeverity_severityToString (v : Severity) :
    parseSeverity (severityToString v) = some v := by
  cases v <;> rfl

theorem decodeIncident_encodeIncident (i : Incident) :
    decodeIncident (encodeIncident i) = some i := by
  rcases i with ⟨id, t, d, cat, sev, st, rep⟩
  cases cat <;> cases sev <;> cases st <;> rfl

theorem decodeList_map_encode (l : List Incident) :
    decodeList (l.map encodeIncident) = some l := by
  induction l with
  | nil => rfl
  | cons i rest ih =>
    show decodeList (encodeIncident i :: rest.map encodeIncident) = _
    simp [decodeList, decodeIncident_encodeIncident, ih]

/-- C8: persistence is a round-trip — for every store state reachable by a
sequence of mutations through the endpoints, serializing the collection to
the durable file format and loading it back yields the same collection,
field for field. -/
theorem persist_load_roundtrip (s : Store) (_hreach : Reachable s) :
    load (persist s.incidents) = some s.incidents := by
  show decodeList (s.incidents.map encodeIncident) = _
  exact decodeList_map_encode s.incidents

theorem persist_load_roundtrip_witness :
    load (persist (createIncident emptyStore demoValid 100).1.incidents) =
      some (createIncident emptyStore demoValid 100).1.incidents :=
  persist_load_roundtrip (createIncident emptyStore demoValid 100).1
    (Reachable.create demoValid 100 Reachable.empty)

/-- C9: a mutating store operation is atomic with respect to persistence:
it reports success exactly when the durable write succeeds, success leaves
the file consistent with the new in-memory collection, and failure leaves
the durable snapshot untouched with the in-memory collection rolled back to
it — so when the state was consistent beforehand, a failed mutation is not
applied at all. -/
theorem runMutation_atomic (ps : PersistentStore) (f : Store → Store)
    (writeOk : Bool) :
    ((runMutation ps f writeOk).2 = true ↔ writeOk = true) ∧
    ((runMutation ps f writeOk).2 = true →
        (runMutation ps f writeOk).1.disk =
          (runMutation ps f writeOk).1.mem.incidents ∧
        (runMutation ps f writeOk).1.mem = f ps.mem) ∧
    ((runMutation ps f writeOk).2 = false →
        (runMutation ps f writeOk).1.disk = ps.disk ∧
        (runMutation ps f writeOk).1.mem.incidents = ps.disk ∧
        (consistent ps →
          (runMutation ps f writeOk).1.mem.incidents = ps.mem.incidents)) := by
  cases writeOk with
  | false =>
    refine ⟨by simp [runMutation], by simp [runMutation], ?_⟩
    intro _
    refine ⟨rfl, rfl, ?_⟩
    intro hcons
    exact hcons
  | true =>
    refine ⟨by simp [runMutation], ?_, by simp [runMutation]⟩
    intro _
    exact ⟨rfl, rfl⟩

/-- A consistent persistent store around `demoStore`. -/
def demoPS : PersistentStore := { mem := demoStore, disk := demoStore.incidents }

theorem runMutation_atomic_witness :
    (runMutation demoPS (fun s => (createIncident s demoValid 5).1) false).2 =
      false ∧
    (runMutation demoPS (fun s => (createIncident s demoValid 5).1)
        false).1.mem.incidents = demoPS.mem.incidents := by
  have h := runMutation_atomic demoPS (fun s => (createIncident s demoValid 5).1)
    false
  exact ⟨by rfl, (h.2.2 (by rfl)).2.2 (by rfl)⟩

end IMS
